import Mathlib

/-!
Verification of the MANTRA glacier snowline retrieval scripts.

The development shallowly embeds the numeric core of the MANTRA toolset
(core.js, proc_parallel.js, evaluate.js).  Per-pixel band values and all
derived indices are modelled over the rationals; a division whose
denominator is zero yields the value none of Option, modelling the NaN
that the source propagates.  Calls into the Earth Engine geometry and
zonal-statistics services (area of an outline, polygon intersection,
zonal reducers) are modelled as function-valued inputs of the per-unit
pipeline, exactly as the specification declares them external services.
-/

namespace Mantra

/-- Division with NaN propagation: a zero denominator yields none. -/
def qdiv (a b : ℚ) : Option ℚ := if b = 0 then none else some (a / b)

/-- Per-pixel band values of a Landsat scene after renaming, from the
band tables of proc_parallel.js and evaluate.js. -/
structure BandSet where
  b : ℚ
  g : ℚ
  r : ℚ
  nir : ℚ
  swir1 : ℚ
  swir2 : ℚ
  t : ℚ

/-- Per-pixel derived indices; none models a NaN from a zero-denominator
division. -/
structure IndexSet where
  ndsi : Option ℚ
  ratio1 : Option ℚ
  ratio2 : Option ℚ

/-- Minimum temperature threshold in Kelvin, core.js line 47. -/
def T_threshold : ℚ := 263.15

/-- The 0/1 raster bt.lt(T_threshold), core.js line 54. -/
def T_mask (bt : ℚ) : ℚ := if bt < T_threshold then 1 else 0

/-- Earth Engine .not() on a 0/1 raster: 1 where the input is 0, else 0. -/
def img_not (x : ℚ) : ℚ := if x = 0 then 1 else 0

/-- T_mask.multiply(T_threshold).add(bt.multiply(T_mask.not())),
core.js line 55. -/
def bt_no_freeze (bt : ℚ) : ℚ := T_mask bt * T_threshold + bt * img_not (T_mask bt)

/-- bt_no_freeze.subtract(230).divide(70), core.js line 57. -/
def bt_corr (bt : ℚ) : ℚ := (bt_no_freeze bt - 230) / 70

/-- Band-ratio computation of core.js lines 45-72: NDSI from SWIR1 and G,
Ratio1 from the corrected brightness temperature and G plus NIR, Ratio2
from G and the corrected brightness temperature. -/
def get_band_ratios (img : BandSet) : IndexSet :=
  { ndsi := qdiv (img.swir1 - img.g) (img.swir1 + img.g)
    ratio1 := qdiv (bt_corr img.t - (img.g + img.nir)) (bt_corr img.t + (img.g + img.nir))
    ratio2 := qdiv (img.g - bt_corr img.t) (img.g + bt_corr img.t) }

/-- One row of the threshold catalog: six ordered bounds, core.js
lines 11-39. -/
structure ThRow where
  ndsi_min : ℚ
  ndsi_max : ℚ
  r1_min : ℚ
  r1_max : ℚ
  r2_min : ℚ
  r2_max : ℚ

def th_snow_l1 : ThRow := ⟨-99, -0.6, -0.9, -0.15, -0.15, 99⟩
def th_snow_l2 : ThRow := ⟨-99, -0.6, -0.9, -0.15, -0.15, 99⟩
def th_snow_l3 : ThRow := ⟨-99, -0.6, -0.9, -0.15, -0.15, 99⟩
def th_snow_l4 : ThRow := ⟨-99, -0.6, -0.9, -0.15, -0.15, 99⟩
def th_snow_l5 : ThRow := ⟨-99, -0.6, -0.9, -0.15, -0.15, 99⟩
def th_snow_l7 : ThRow := ⟨-99, -0.6, -1.5, 0, -0.15, 99⟩
def th_snow_l8 : ThRow := ⟨-99, -0.6, -0.7, -0.15, -0.15, 99⟩
def th_unknown : ThRow := ⟨99, 99, 99, 99, 99, 99⟩

def th_ice_l1 : ThRow := ⟨-99, -0.45, -0.8, 0.3, -0.6, -0.15⟩
def th_ice_l2 : ThRow := ⟨-99, -0.45, -0.8, 0.3, -0.6, -0.15⟩
def th_ice_l3 : ThRow := ⟨-99, -0.45, -0.8, 0.3, -0.6, -0.15⟩
def th_ice_l4 : ThRow := ⟨-99, -0.45, -0.8, 0.3, -0.6, -0.15⟩
def th_ice_l5 : ThRow := ⟨-99, -0.45, -0.8, 0.3, -0.6, -0.15⟩
def th_ice_l7 : ThRow := ⟨-99, -0.5, -0.4, 0.55, -0.7, -0.15⟩
def th_ice_l8 : ThRow := ⟨-99, -0.6, -0.4, 0.55, -0.7, -0.15⟩

def th_debris_l1 : ThRow := ⟨-0.2, 99, 0.1, 1, -0.8, -0.2⟩
def th_debris_l2 : ThRow := ⟨-0.2, 99, 0.1, 1, -0.8, -0.2⟩
def th_debris_l3 : ThRow := ⟨-0.2, 99, 0.1, 1, -0.8, -0.2⟩
def th_debris_l4 : ThRow := ⟨-0.2, 99, 0.1, 1, -0.8, -0.2⟩
def th_debris_l5 : ThRow := ⟨-0.2, 99, 0.1, 1, -0.8, -0.2⟩
def th_debris_l7 : ThRow := ⟨-0.1, 99, 0, 0.6, -0.8, -0.2⟩
def th_debris_l8 : ThRow := ⟨-0.2, 99, 0, 0.6, -0.8, -0.3⟩

/-- Earth Engine .gt comparison of a possibly-NaN index against a bound:
NaN compares false. -/
def band_gt (v : Option ℚ) (bound : ℚ) : Bool :=
  match v with
  | none => false
  | some x => decide (bound < x)

/-- Earth Engine .lt comparison of a possibly-NaN index against a bound:
NaN compares false. -/
def band_lt (v : Option ℚ) (bound : ℚ) : Bool :=
  match v with
  | none => false
  | some x => decide (x < bound)

/-- The six-fold chained comparison ndsi.gt(..).and(ndsi.lt(..)).and(...)
shared by core.js lines 107-112, 153-158 and 198-203. -/
def classify_row (th : ThRow) (v : IndexSet) : Bool :=
  band_gt v.ndsi th.ndsi_min && band_lt v.ndsi th.ndsi_max &&
  band_gt v.ratio1 th.r1_min && band_lt v.ratio1 th.r1_max &&
  band_gt v.ratio2 th.r2_min && band_lt v.ratio2 th.r2_max

/-- Sensor dispatch of snow_identification, core.js lines 175-196. -/
def snow_thresholds (sensor : String) : ThRow :=
  if sensor = "LANDSAT_8" then th_snow_l8
  else if sensor = "LANDSAT_7" then th_snow_l7
  else if sensor = "LANDSAT_5" then th_snow_l5
  else if sensor = "LANDSAT_4" then th_snow_l4
  else if sensor = "LANDSAT_3" then th_snow_l3
  else if sensor = "LANDSAT_2" then th_snow_l2
  else if sensor = "LANDSAT_1" then th_snow_l1
  else th_unknown

/-- Sensor dispatch of ice_identification, core.js lines 130-151. -/
def ice_thresholds (sensor : String) : ThRow :=
  if sensor = "LANDSAT_8" then th_ice_l8
  else if sensor = "LANDSAT_7" then th_ice_l7
  else if sensor = "LANDSAT_5" then th_ice_l5
  else if sensor = "LANDSAT_4" then th_ice_l4
  else if sensor = "LANDSAT_3" then th_ice_l3
  else if sensor = "LANDSAT_2" then th_ice_l2
  else if sensor = "LANDSAT_1" then th_ice_l1
  else th_unknown

/-- Sensor dispatch of debris_identification, core.js lines 84-105. -/
def debris_thresholds (sensor : String) : ThRow :=
  if sensor = "LANDSAT_8" then th_debris_l8
  else if sensor = "LANDSAT_7" then th_debris_l7
  else if sensor = "LANDSAT_5" then th_debris_l5
  else if sensor = "LANDSAT_4" then th_debris_l4
  else if sensor = "LANDSAT_3" then th_debris_l3
  else if sensor = "LANDSAT_2" then th_debris_l2
  else if sensor = "LANDSAT_1" then th_debris_l1
  else th_unknown

/-- Per-pixel snow classifier, core.js lines 169-211. -/
def snow_identification (sensor : String) (img : BandSet) : Bool :=
  classify_row (snow_thresholds sensor) (get_band_ratios img)

/-- Per-pixel clean-ice classifier, core.js lines 124-166. -/
def ice_identification (sensor : String) (img : BandSet) : Bool :=
  classify_row (ice_thresholds sensor) (get_band_ratios img)

/-- Per-pixel debris classifier, core.js lines 78-120. -/
def debris_identification (sensor : String) (img : BandSet) : Bool :=
  classify_row (debris_thresholds sensor) (get_band_ratios img)

/-- A fully defined index triple satisfies the classification predicate
exactly when all six bound comparisons hold strictly. -/
theorem classify_row_some_iff (th : ThRow) (a b c : ℚ) :
    classify_row th ⟨some a, some b, some c⟩ = true ↔
      (th.ndsi_min < a ∧ a < th.ndsi_max ∧ th.r1_min < b ∧ b < th.r1_max ∧
        th.r2_min < c ∧ c < th.r2_max) := by
  simp [classify_row, band_gt, band_lt, and_assoc]

/-- A NaN in any of the three indices makes the classification predicate
false. -/
theorem classify_row_none (th : ThRow) (v : IndexSet)
    (h : v.ndsi = none ∨ v.ratio1 = none ∨ v.ratio2 = none) :
    classify_row th v = false := by
  rcases v with ⟨ondsi, or1, or2⟩
  rcases h with h | h | h <;> simp only at h <;> subst h <;>
    simp [classify_row, band_gt]

/-- A classified pixel has its NDSI strictly below the NDSI upper bound. -/
theorem classify_row_lt_ndsi_max (th : ThRow) (a : ℚ) (or1 or2 : Option ℚ)
    (h : classify_row th ⟨some a, or1, or2⟩ = true) : a < th.ndsi_max := by
  simp only [classify_row, Bool.and_eq_true, band_lt, decide_eq_true_eq] at h
  exact h.1.1.1.1.2

/-- Two threshold rows whose NDSI ranges are disjoint are never satisfied
together. -/
theorem classify_row_disjoint (th1 th2 : ThRow)
    (hd : th1.ndsi_max ≤ th2.ndsi_min) (v : IndexSet) :
    (classify_row th1 v && classify_row th2 v) = false := by
  rcases v with ⟨ondsi, or1, or2⟩
  cases ondsi with
  | none =>
    have h1 : classify_row th1 ⟨none, or1, or2⟩ = false := by
      simp [classify_row, band_gt]
    rw [h1, Bool.false_and]
  | some a =>
    by_cases h1 : classify_row th1 ⟨some a, or1, or2⟩ = true
    · have ha : a < th1.ndsi_max := classify_row_lt_ndsi_max th1 a or1 or2 h1
      have h2 : classify_row th2 ⟨some a, or1, or2⟩ = false := by
        have hgt : band_gt (some a) th2.ndsi_min = false := by
          simp [band_gt]
          linarith
        simp [classify_row, hgt]
      rw [h2, Bool.and_false]
    · have h1f : classify_row th1 ⟨some a, or1, or2⟩ = false := by
        revert h1
        cases classify_row th1 ⟨some a, or1, or2⟩ <;> simp
      rw [h1f, Bool.false_and]

/-- Debris and ice predicates exclude each other for every sensor string. -/
theorem ice_debris_disjoint (s : String) (v : IndexSet) :
    (classify_row (ice_thresholds s) v && classify_row (debris_thresholds s) v) = false := by
  unfold ice_thresholds debris_thresholds
  split_ifs <;>
    exact classify_row_disjoint _ _
      (by norm_num [th_ice_l1, th_ice_l2, th_ice_l3, th_ice_l4, th_ice_l5, th_ice_l7,
        th_ice_l8, th_debris_l1, th_debris_l2, th_debris_l3, th_debris_l4, th_debris_l5,
        th_debris_l7, th_debris_l8, th_unknown]) v

/-- The vacuous row satisfies no index triple. -/
theorem classify_row_unknown (v : IndexSet) : classify_row th_unknown v = false := by
  rcases v with ⟨ondsi, or1, or2⟩
  cases ondsi with
  | none => simp [classify_row, band_gt]
  | some a =>
    simp only [classify_row, th_unknown, band_gt, band_lt, Bool.and_eq_false_iff,
      decide_eq_false_iff_not, not_lt]
    by_cases h : (99 : ℚ) < a
    · exact Or.inl (Or.inl (Or.inl (Or.inl (Or.inr (le_of_lt h)))))
    · exact Or.inl (Or.inl (Or.inl (Or.inl (Or.inl (le_of_not_lt h)))))

/-- A sensor string distinct from the seven recognized Landsat identifiers
dispatches to the vacuous row in all three catalogs. -/
theorem unknown_sensor_thresholds (s : String)
    (h8 : s ≠ "LANDSAT_8") (h7 : s ≠ "LANDSAT_7") (h5 : s ≠ "LANDSAT_5")
    (h4 : s ≠ "LANDSAT_4") (h3 : s ≠ "LANDSAT_3") (h2 : s ≠ "LANDSAT_2")
    (h1 : s ≠ "LANDSAT_1") :
    snow_thresholds s = th_unknown ∧ ice_thresholds s = th_unknown ∧
      debris_thresholds s = th_unknown := by
  refine ⟨?_, ?_, ?_⟩ <;>
    simp [snow_thresholds, ice_thresholds, debris_thresholds, h8, h7, h5, h4, h3, h2, h1]

/-- The mask-multiply freeze guard agrees with the max form. -/
theorem bt_no_freeze_eq_max (bt : ℚ) : bt_no_freeze bt = max bt T_threshold := by
  unfold bt_no_freeze T_mask img_not
  by_cases h : bt < T_threshold
  · simp [h, max_eq_right (le_of_lt h)]
  · simp [h, max_eq_left (le_of_not_lt h)]

/-- C4: for every band set, get_band_ratios computes T_eff as max of T and
263.15 (the mask-multiply freeze guard is extensionally that max),
T_norm as (T_eff - 230) / 70, NDSI as (SWIR1 - G)/(SWIR1 + G),
Ratio1 as (T_norm - (G + NIR))/(T_norm + (G + NIR)) and
Ratio2 as (G - T_norm)/(G + T_norm). -/
theorem get_band_ratios_spec (img : BandSet) :
    bt_no_freeze img.t = max img.t T_threshold ∧
    get_band_ratios img =
      { ndsi := qdiv (img.swir1 - img.g) (img.swir1 + img.g)
        ratio1 := qdiv ((max img.t T_threshold - 230) / 70 - (img.g + img.nir))
          ((max img.t T_threshold - 230) / 70 + (img.g + img.nir))
        ratio2 := qdiv (img.g - (max img.t T_threshold - 230) / 70)
          (img.g + (max img.t T_threshold - 230) / 70) } := by
  refine ⟨bt_no_freeze_eq_max img.t, ?_⟩
  unfold get_band_ratios bt_corr
  rw [bt_no_freeze_eq_max]

/-- C3: for every threshold row (hence every sensor and every surface
class) the classifier marks a pixel as belonging to the class iff all six
bound comparisons hold strictly; an index value equal to any bound of the
row excludes the pixel from the class; a NaN index value excludes the
pixel from every class; and the three per-sensor classifiers are exactly
this predicate applied to the catalog row for the sensor. -/
theorem classifier_strict_bounds :
    (∀ (th : ThRow) (a b c : ℚ),
      classify_row th ⟨some a, some b, some c⟩ = true ↔
        (th.ndsi_min < a ∧ a < th.ndsi_max ∧ th.r1_min < b ∧ b < th.r1_max ∧
          th.r2_min < c ∧ c < th.r2_max)) ∧
    (∀ (th : ThRow) (b c : ℚ),
      classify_row th ⟨some th.ndsi_min, some b, some c⟩ = false ∧
      classify_row th ⟨some th.ndsi_max, some b, some c⟩ = false) ∧
    (∀ (th : ThRow) (a c : ℚ),
      classify_row th ⟨some a, some th.r1_min, some c⟩ = false ∧
      classify_row th ⟨some a, some th.r1_max, some c⟩ = false) ∧
    (∀ (th : ThRow) (a b : ℚ),
      classify_row th ⟨some a, some b, some th.r2_min⟩ = false ∧
      classify_row th ⟨some a, some b, some th.r2_max⟩ = false) ∧
    (∀ (th : ThRow) (v : IndexSet),
      v.ndsi = none ∨ v.ratio1 = none ∨ v.ratio2 = none → classify_row th v = false) ∧
    (∀ (s : String) (img : BandSet),
      snow_identification s img = classify_row (snow_thresholds s) (get_band_ratios img) ∧
      ice_identification s img = classify_row (ice_thresholds s) (get_band_ratios img) ∧
      debris_identification s img = classify_row (debris_thresholds s) (get_band_ratios img)) := by
  refine ⟨classify_row_some_iff, ?_, ?_, ?_, classify_row_none, fun s img => ⟨rfl, rfl, rfl⟩⟩
  · intro th b c
    refine ⟨?_, ?_⟩ <;>
      simp only [classify_row, band_gt, band_lt, Bool.and_eq_false_iff,
        decide_eq_false_iff_not, not_lt]
    · exact Or.inl (Or.inl (Or.inl (Or.inl (Or.inl le_rfl))))
    · exact Or.inl (Or.inl (Or.inl (Or.inl (Or.inr le_rfl))))
  · intro th a c
    refine ⟨?_, ?_⟩ <;>
      simp only [classify_row, band_gt, band_lt, Bool.and_eq_false_iff,
        decide_eq_false_iff_not, not_lt]
    · exact Or.inl (Or.inl (Or.inl (Or.inr le_rfl)))
    · exact Or.inl (Or.inl (Or.inr le_rfl))
  · intro th a b
    refine ⟨?_, ?_⟩ <;>
      simp only [classify_row, band_gt, band_lt, Bool.and_eq_false_iff,
        decide_eq_false_iff_not, not_lt]
    · exact Or.inl (Or.inr le_rfl)
    · exact Or.inr le_rfl

/-- Witness for C3: a pixel with NaN NDSI is excluded from the snow class
of Landsat 8. -/
theorem classifier_strict_bounds_witness :
    classify_row th_snow_l8 ⟨none, some 0, some 0⟩ = false :=
  classifier_strict_bounds.2.2.2.2.1 th_snow_l8 ⟨none, some 0, some 0⟩ (Or.inl rfl)

/-- C6: the unknown-sensor row has min equal to max in each of its three
index ranges, its strict-inequality predicate is unsatisfiable, and any
sensor string other than the seven recognized identifiers dispatches to
it, so all three classifiers return false for every pixel of such a
scene. -/
theorem unknown_sensor_resolves_unclassified :
    (th_unknown.ndsi_min = th_unknown.ndsi_max ∧ th_unknown.r1_min = th_unknown.r1_max ∧
      th_unknown.r2_min = th_unknown.r2_max) ∧
    (∀ v : IndexSet, classify_row th_unknown v = false) ∧
    (∀ s : String, s ≠ "LANDSAT_8" → s ≠ "LANDSAT_7" → s ≠ "LANDSAT_5" →
      s ≠ "LANDSAT_4" → s ≠ "LANDSAT_3" → s ≠ "LANDSAT_2" → s ≠ "LANDSAT_1" →
      snow_thresholds s = th_unknown ∧ ice_thresholds s = th_unknown ∧
      debris_thresholds s = th_unknown ∧
      ∀ img : BandSet, snow_identification s img = false ∧
        ice_identification s img = false ∧ debris_identification s img = false) := by
  refine ⟨⟨rfl, rfl, rfl⟩, classify_row_unknown, ?_⟩
  intro s h8 h7 h5 h4 h3 h2 h1
  obtain ⟨hs, hi, hd⟩ := unknown_sensor_thresholds s h8 h7 h5 h4 h3 h2 h1
  refine ⟨hs, hi, hd, fun img => ⟨?_, ?_, ?_⟩⟩
  · rw [snow_identification, hs]; exact classify_row_unknown _
  · rw [ice_identification, hi]; exact classify_row_unknown _
  · rw [debris_identification, hd]; exact classify_row_unknown _

/-- Witness for C6: a scene tagged SENTINEL_2 classifies no pixel into any
of the three classes. -/
theorem unknown_sensor_resolves_unclassified_witness :
    snow_thresholds ("SENTINEL_2") = th_unknown ∧
      snow_identification ("SENTINEL_2") ⟨0, 0, 0, 0, 1, 0, 280⟩ = false :=
  ⟨(unknown_sensor_resolves_unclassified.2.2 ("SENTINEL_2") (by decide) (by decide)
      (by decide) (by decide) (by decide) (by decide) (by decide)).1,
    ((unknown_sensor_resolves_unclassified.2.2 ("SENTINEL_2") (by decide) (by decide)
      (by decide) (by decide) (by decide) (by decide) (by decide)).2.2.2
      ⟨0, 0, 0, 0, 1, 0, 280⟩).1⟩

/-- C9: for every sensor row of the catalogs the NDSI range of the ice
class lies entirely below the NDSI range of the debris class, and for
every sensor string and every index triple (hence every pixel) the ice
and debris predicates are never both satisfied. -/
theorem ice_debris_mutually_exclusive :
    (th_ice_l1.ndsi_max ≤ th_debris_l1.ndsi_min ∧
      th_ice_l2.ndsi_max ≤ th_debris_l2.ndsi_min ∧
      th_ice_l3.ndsi_max ≤ th_debris_l3.ndsi_min ∧
      th_ice_l4.ndsi_max ≤ th_debris_l4.ndsi_min ∧
      th_ice_l5.ndsi_max ≤ th_debris_l5.ndsi_min ∧
      th_ice_l7.ndsi_max ≤ th_debris_l7.ndsi_min ∧
      th_ice_l8.ndsi_max ≤ th_debris_l8.ndsi_min) ∧
    (∀ (s : String) (v : IndexSet),
      (classify_row (ice_thresholds s) v && classify_row (debris_thresholds s) v) = false) ∧
    (∀ (s : String) (img : BandSet),
      (ice_identification s img && debris_identification s img) = false) := by
  refine ⟨?_, ice_debris_disjoint, fun s img => ice_debris_disjoint s (get_band_ratios img)⟩
  norm_num [th_ice_l1, th_ice_l2, th_ice_l3, th_ice_l4, th_ice_l5, th_ice_l7, th_ice_l8,
    th_debris_l1, th_debris_l2, th_debris_l3, th_debris_l4, th_debris_l5, th_debris_l7,
    th_debris_l8]

/-- C10: the sensor dispatch recognizes only the seven strings LANDSAT_8,
7, 5, 4, 3, 2, 1; the string LANDSAT_6 in particular falls through to the
vacuous unknown row in all three catalogs, so every pixel of such a scene
is unclassified in all three classes. -/
theorem landsat6_falls_to_unknown :
    (∀ s : String, s ≠ "LANDSAT_8" → s ≠ "LANDSAT_7" → s ≠ "LANDSAT_5" →
      s ≠ "LANDSAT_4" → s ≠ "LANDSAT_3" → s ≠ "LANDSAT_2" → s ≠ "LANDSAT_1" →
      snow_thresholds s = th_unknown ∧ ice_thresholds s = th_unknown ∧
        debris_thresholds s = th_unknown) ∧
    (snow_thresholds ("LANDSAT_6") = th_unknown ∧
      ice_thresholds ("LANDSAT_6") = th_unknown ∧
      debris_thresholds ("LANDSAT_6") = th_unknown) ∧
    (∀ img : BandSet, snow_identification ("LANDSAT_6") img = false ∧
      ice_identification ("LANDSAT_6") img = false ∧
      debris_identification ("LANDSAT_6") img = false) := by
  refine ⟨unknown_sensor_thresholds, ?_, ?_⟩
  · exact unknown_sensor_thresholds ("LANDSAT_6") (by decide) (by decide) (by decide)
      (by decide) (by decide) (by decide) (by decide)
  · intro img
    obtain ⟨hs, hi, hd⟩ := unknown_sensor_thresholds ("LANDSAT_6") (by decide) (by decide)
      (by decide) (by decide) (by decide) (by decide) (by decide)
    refine ⟨?_, ?_, ?_⟩
    · rw [snow_identification, hs]; exact classify_row_unknown _
    · rw [ice_identification, hi]; exact classify_row_unknown _
    · rw [debris_identification, hd]; exact classify_row_unknown _

/-- Witness for C10: the dispatch sends LANDSAT_9 to the unknown row. -/
theorem landsat6_falls_to_unknown_witness :
    snow_thresholds ("LANDSAT_9") = th_unknown ∧
      ice_thresholds ("LANDSAT_9") = th_unknown ∧
      debris_thresholds ("LANDSAT_9") = th_unknown :=
  landsat6_falls_to_unknown.1 ("LANDSAT_9") (by decide) (by decide) (by decide)
    (by decide) (by decide) (by decide) (by decide)

/-- Percentile of the altitude range to obtain the TSL from,
proc_parallel.js line 72. -/
def tsl_median_binsize : ℕ := 2

/-- Minimum cloud-free portion of the glacier surface in percent,
proc_parallel.js line 73. -/
def cf_threshold : ℚ := 20

/-- Snow statistics record carried on the snow cover outline; none models
the string NaN sentinel written by create_nan_dict. -/
structure SnowStats where
  stats_mean : Option ℚ
  stats_median : Option ℚ
  stats_min : Option ℚ
  stats_max : Option ℚ
  stats_stdev : Option ℚ

/-- The external zonal-statistics service of the specification: reducers
applied to the DEM values of a region, opaque to the core. -/
structure ZonalReducers where
  percentile : ℕ → List ℚ → ℚ
  rmean : List ℚ → ℚ
  rmedian : List ℚ → ℚ
  rmin : List ℚ → ℚ
  rmax : List ℚ → ℚ
  rstdev : List ℚ → ℚ

/-- obtain_DEM_stats, proc_parallel.js lines 118-156: reduce the DEM
inside the snow outline to its percentile at tsl_median_binsize, mask the
DEM to the values at or below that elevation, and reduce the masked
subset with mean, median, max, min and standard deviation. -/
def obtain_DEM_stats (zonal : ZonalReducers) (snowDEM : List ℚ) : SnowStats :=
  let lowest_percentiles := zonal.percentile tsl_median_binsize snowDEM
  let masked_DEM := snowDEM.filter (fun z => decide (z ≤ lowest_percentiles))
  { stats_mean := some (zonal.rmean masked_DEM)
    stats_median := some (zonal.rmedian masked_DEM)
    stats_min := some (zonal.rmin masked_DEM)
    stats_max := some (zonal.rmax masked_DEM)
    stats_stdev := some (zonal.rstdev masked_DEM) }

/-- create_nan_dict, proc_parallel.js lines 159-174: every statistical
field is the NaN sentinel. -/
def create_nan_dict : SnowStats :=
  { stats_mean := none, stats_median := none, stats_min := none, stats_max := none
    stats_stdev := none }

/-- All scalar and raster observations that the external Earth Engine
geometry, raster and zonal-statistics services deliver for one
(glacier, date) unit of the batch pipeline.  Areas are in square
kilometres, as produced by area(0.1).divide(1000 * 1000); the outline
and intersection areas are functions of the list of DEM values kept by
the elevation-band mask, standing for reduceToVectors, geometry
intersection and area computation on the resulting outline. -/
structure UnitObs where
  glacier_area : ℚ
  SC_area : ℚ
  TCC_area : ℚ
  CC_area : ℚ
  snowDEM : List ℚ
  glacierDEM : List ℚ
  zonal : ZonalReducers
  outline_area : List ℚ → ℚ
  cloud_intersection_area : List ℚ → ℚ
  tcc_intersection_area : List ℚ → ℚ

/-- Snow cover outline statistics of one unit, proc_parallel.js
lines 297-300: DEM stats when the snow area is positive, the NaN dict
otherwise. -/
def unit_snow_stats (u : UnitObs) : SnowStats :=
  if 0 < u.SC_area then obtain_DEM_stats u.zonal u.snowDEM else create_nan_dict

/-- Status of the DEM TSL-range outline, proc_parallel.js lines 356-364:
0 when the snow mean is the NaN sentinel, 1 when the snow standard
deviation and mean are both positive, 0 otherwise. -/
def unit_status (u : UnitObs) : ℕ :=
  match (unit_snow_stats u).stats_mean, (unit_snow_stats u).stats_stdev with
  | none, _ => 0
  | some _, none => 0
  | some m, some sd => if 0 < sd ∧ 0 < m then 1 else 0

/-- DEM values of the glacier kept by the TSL-range elevation-band mask
alos_glacier.lte(TSL_range_max).and(alos_glacier.gt(TSL_range_min)),
proc_parallel.js lines 331-335. -/
def unit_TSLrange_pixels (u : UnitObs) : List ℚ :=
  match (unit_snow_stats u).stats_mean, (unit_snow_stats u).stats_stdev with
  | some m, some sd =>
      u.glacierDEM.filter (fun z => decide (z ≤ m + sd) && decide (m - sd < z))
  | _, _ => []

/-- DEM_TSLrange_area, proc_parallel.js lines 365-368: area of the
TSL-range outline when the status is 1, NaN otherwise. -/
def unit_DEM_TSLrange_area (u : UnitObs) : Option ℚ :=
  if unit_status u = 1 then some (u.outline_area (unit_TSLrange_pixels u)) else none

/-- cc_TSLrange_area, proc_parallel.js lines 371-379: area of the
intersection of the TSL-range outline with the cloud outline when the
status is 1, NaN otherwise. -/
def unit_cc_TSLrange_area (u : UnitObs) : Option ℚ :=
  if unit_status u = 1 then some (u.cloud_intersection_area (unit_TSLrange_pixels u))
  else none

/-- cc_TSLrange_percent, proc_parallel.js lines 381-384 (same in
evaluate.js lines 441-444): ratio of the two areas times 100 when the
status is 1, the constant 100 otherwise. -/
def unit_cc_TSLrange_percent (u : UnitObs) : Option ℚ :=
  if unit_status u = 1 then
    match unit_cc_TSLrange_area u, unit_DEM_TSLrange_area u with
    | some a, some b => (qdiv a b).map (fun x => x * 100)
    | _, _ => none
  else some 100

/-- tcc_TSLrange_area, evaluate.js lines 447-455: area of the intersection
of the TSL-range outline with the total-classified outline when the
status is 1, NaN otherwise. -/
def unit_tcc_TSLrange_area (u : UnitObs) : Option ℚ :=
  if unit_status u = 1 then some (u.tcc_intersection_area (unit_TSLrange_pixels u))
  else none

/-- tcc_TSLrange_percent, evaluate.js lines 457-460. -/
def unit_tcc_TSLrange_percent (u : UnitObs) : Option ℚ :=
  if unit_status u = 1 then
    match unit_tcc_TSLrange_area u, unit_DEM_TSLrange_area u with
    | some a, some b => (qdiv a b).map (fun x => x * 100)
    | _, _ => none
  else some 100

/-- class_coverage, proc_parallel.js line 289 and evaluate.js line 332:
total classified outline area over glacier area times 100. -/
def unit_class_coverage (u : UnitObs) : Option ℚ :=
  (qdiv u.TCC_area u.glacier_area).map (fun x => x * 100)

/-- CC_total_port, proc_parallel.js line 293: cloud outline area over
total classified outline area times 100. -/
def unit_CC_total_port (u : UnitObs) : Option ℚ :=
  (qdiv u.CC_area u.TCC_area).map (fun x => x * 100)

/-- The fields of the result feature of the batch pipeline relevant to
the snowline statistics, proc_parallel.js lines 404-427, together with
the internal TSL-range status that the specification surfaces as the
status field of a TSLAResult. -/
structure TSLAResult where
  SC_mean : Option ℚ
  SC_median : Option ℚ
  SC_min : Option ℚ
  SC_max : Option ℚ
  SC_stdev : Option ℚ
  SC_area : ℚ
  class_coverage : Option ℚ
  CC_total_port : Option ℚ
  cc_TSLrange_percent : Option ℚ
  status : ℕ

/-- One (glacier, date) unit of the batch pipeline of proc_parallel.js,
assembled from the per-unit definitions above. -/
def process_unit (u : UnitObs) : TSLAResult :=
  { SC_mean := (unit_snow_stats u).stats_mean
    SC_median := (unit_snow_stats u).stats_median
    SC_min := (unit_snow_stats u).stats_min
    SC_max := (unit_snow_stats u).stats_max
    SC_stdev := (unit_snow_stats u).stats_stdev
    SC_area := u.SC_area
    class_coverage := unit_class_coverage u
    CC_total_port := unit_CC_total_port u
    cc_TSLrange_percent := unit_cc_TSLrange_percent u
    status := unit_status u }

/-- JavaScript Math.round: round half toward positive infinity. -/
def jsRound (x : ℚ) : ℤ := ⌊x + 1 / 2⌋

/-- The displayed classification coverage of the evaluate tool,
evaluate.js lines 561-566: values above 100 display as 100.00, the rest
are rounded to two decimals. -/
def output_class_coverage (x : ℚ) : ℚ :=
  if 100 < x then 100 else (jsRound (x * 100) : ℚ) / 100

/-- A unit whose classified coverage is 10 percent of the glacier, below
the 20 percent cf_threshold, but whose snow area is positive and whose
snow statistics are well defined. -/
def c1_unit : UnitObs :=
  { glacier_area := 100
    SC_area := 5
    TCC_area := 10
    CC_area := 2
    snowDEM := [1000, 1100]
    glacierDEM := [1000, 1100, 1200]
    zonal :=
      { percentile := fun _ _ => 1000
        rmean := fun _ => 1050
        rmedian := fun _ => 1050
        rmin := fun _ => 1000
        rmax := fun _ => 1100
        rstdev := fun _ => 50 }
    outline_area := fun _ => 1
    cloud_intersection_area := fun _ => 0
    tcc_intersection_area := fun _ => 0 }

/-- C1: the batch pipeline gates the NaN sentinel only on the snow area
being zero, never on class_coverage against cf_threshold: a unit with
coverage 10 percent, below the threshold of 20, still obtains numeric
snow statistics and status 1.  cf_threshold is used nowhere but in the
label string of create_nan_dict. -/
theorem cf_threshold_gate_missing :
    (process_unit c1_unit).class_coverage = some 10 ∧
    (10 : ℚ) < cf_threshold ∧
    (process_unit c1_unit).status = 1 ∧
    (process_unit c1_unit).SC_mean = some 1050 ∧
    (process_unit c1_unit).SC_median = some 1050 ∧
    (process_unit c1_unit).SC_min = some 1000 ∧
    (process_unit c1_unit).SC_max = some 1100 ∧
    (process_unit c1_unit).SC_stdev = some 50 := by
  refine ⟨?_, by decide, by decide, by decide, by decide, by decide, by decide, by decide⟩
  have h : (100 : ℚ) ≠ 0 := by norm_num
  simp [process_unit, unit_class_coverage, c1_unit, qdiv, h]

/-- A unit whose total classified outline area exceeds the glacier area,
as outline overlap artifacts can produce. -/
def c2_unit : UnitObs :=
  { glacier_area := 100
    SC_area := 0
    TCC_area := 120
    CC_area := 0
    snowDEM := []
    glacierDEM := []
    zonal :=
      { percentile := fun _ _ => 0
        rmean := fun _ => 0
        rmedian := fun _ => 0
        rmin := fun _ => 0
        rmax := fun _ => 0
        rstdev := fun _ => 0 }
    outline_area := fun _ => 0
    cloud_intersection_area := fun _ => 0
    tcc_intersection_area := fun _ => 0 }

/-- Counterexample for C2: the batch pipeline emits the raw coverage
ratio without a clamp, here 120 percent, above 100. -/
theorem class_coverage_not_clamped_cex :
    (process_unit c2_unit).class_coverage = some 120 ∧ (100 : ℚ) < 120 := by
  constructor
  · have h : (100 : ℚ) ≠ 0 := by norm_num
    simp [process_unit, unit_class_coverage, c2_unit, qdiv, h]
  · norm_num

/-- C2 amended: every processed unit reports class_coverage as total
classified area over glacier area times 100, unclamped; the clamp to at
most 100 exists only in the displayed value of the evaluate tool, whose
rounded output never exceeds 100. -/
theorem class_coverage_formula_and_display_clamp :
    (∀ u : UnitObs, u.glacier_area ≠ 0 →
      (process_unit u).class_coverage = some (u.TCC_area / u.glacier_area * 100)) ∧
    (∀ x : ℚ, output_class_coverage x ≤ 100) := by
  constructor
  · intro u hg
    simp [process_unit, unit_class_coverage, qdiv, hg]
  · intro x
    unfold output_class_coverage
    split_ifs with h
    · exact le_refl _
    · push_neg at h
      have h2 : (⌊x * 100 + 1 / 2⌋ : ℤ) < 10001 := by
        refine Int.floor_lt.mpr ?_
        push_cast
        linarith
      have h4 : ((⌊x * 100 + 1 / 2⌋ : ℤ) : ℚ) ≤ 10000 := by exact_mod_cast by omega
      unfold jsRound
      rw [div_le_iff₀ (by norm_num : (0 : ℚ) < 100)]
      linarith

/-- A unit with positive snow area and ordinary coverage. -/
def c2w_unit : UnitObs :=
  { glacier_area := 50
    SC_area := 0
    TCC_area := 25
    CC_area := 0
    snowDEM := []
    glacierDEM := []
    zonal :=
      { percentile := fun _ _ => 0
        rmean := fun _ => 0
        rmedian := fun _ => 0
        rmin := fun _ => 0
        rmax := fun _ => 0
        rstdev := fun _ => 0 }
    outline_area := fun _ => 0
    cloud_intersection_area := fun _ => 0
    tcc_intersection_area := fun _ => 0 }

/-- Witness for the amended C2: a concrete unit reports the raw ratio and
a raw value of 250 displays clamped. -/
theorem class_coverage_formula_and_display_clamp_witness :
    (process_unit c2w_unit).class_coverage =
      some (c2w_unit.TCC_area / c2w_unit.glacier_area * 100) ∧
      output_class_coverage 250 ≤ 100 :=
  ⟨class_coverage_formula_and_display_clamp.1 c2w_unit (by decide),
    class_coverage_formula_and_display_clamp.2 250⟩

/-- C7: when the snow-covered area is positive, each statistical field of
the result is the corresponding zonal reducer applied to the DEM values
inside the snow outline at or below the elevation of the percentile at
tsl_median_binsize, the mask is non-strict so a DEM value equal to the
percentile elevation is kept, and the configured percentile is 2. -/
theorem TSLA_stats_percentile_mask :
    ∀ u : UnitObs, 0 < u.SC_area →
      (process_unit u).SC_mean = some (u.zonal.rmean (u.snowDEM.filter
        (fun z => decide (z ≤ u.zonal.percentile tsl_median_binsize u.snowDEM)))) ∧
      (process_unit u).SC_median = some (u.zonal.rmedian (u.snowDEM.filter
        (fun z => decide (z ≤ u.zonal.percentile tsl_median_binsize u.snowDEM)))) ∧
      (process_unit u).SC_min = some (u.zonal.rmin (u.snowDEM.filter
        (fun z => decide (z ≤ u.zonal.percentile tsl_median_binsize u.snowDEM)))) ∧
      (process_unit u).SC_max = some (u.zonal.rmax (u.snowDEM.filter
        (fun z => decide (z ≤ u.zonal.percentile tsl_median_binsize u.snowDEM)))) ∧
      (process_unit u).SC_stdev = some (u.zonal.rstdev (u.snowDEM.filter
        (fun z => decide (z ≤ u.zonal.percentile tsl_median_binsize u.snowDEM)))) ∧
      (∀ z ∈ u.snowDEM, z = u.zonal.percentile tsl_median_binsize u.snowDEM →
        z ∈ u.snowDEM.filter
          (fun z => decide (z ≤ u.zonal.percentile tsl_median_binsize u.snowDEM))) ∧
      tsl_median_binsize = 2 := by
  intro u h
  have hs : unit_snow_stats u = obtain_DEM_stats u.zonal u.snowDEM := by
    simp [unit_snow_stats, h]
  refine ⟨?_, ?_, ?_, ?_, ?_, ?_, rfl⟩
  · simp [process_unit, hs, obtain_DEM_stats]
  · simp [process_unit, hs, obtain_DEM_stats]
  · simp [process_unit, hs, obtain_DEM_stats]
  · simp [process_unit, hs, obtain_DEM_stats]
  · simp [process_unit, hs, obtain_DEM_stats]
  · intro z hz hze
    subst hze
    simp [List.mem_filter, hz]

/-- A unit with positive snow area for instantiating the TSLA statistics
theorem. -/
def c7_unit : UnitObs :=
  { glacier_area := 10
    SC_area := 3
    TCC_area := 9
    CC_area := 1
    snowDEM := [1200, 1250, 1300]
    glacierDEM := [1100, 1200, 1250, 1300]
    zonal :=
      { percentile := fun _ _ => 1250
        rmean := fun l => l.sum
        rmedian := fun l => l.sum
        rmin := fun _ => 1200
        rmax := fun _ => 1250
        rstdev := fun _ => 25 }
    outline_area := fun _ => 1
    cloud_intersection_area := fun _ => 0
    tcc_intersection_area := fun _ => 0 }

/-- Witness for C7 at a concrete unit. -/
theorem TSLA_stats_percentile_mask_witness :
    (process_unit c7_unit).SC_mean = some (c7_unit.zonal.rmean (c7_unit.snowDEM.filter
      (fun z => decide (z ≤ c7_unit.zonal.percentile tsl_median_binsize c7_unit.snowDEM)))) :=
  (TSLA_stats_percentile_mask c7_unit (by decide)).1

/-- A unit whose snow statistics are well defined with positive mean and
standard deviation while the TSL-range elevation band outline has zero
area. -/
def c5_unit : UnitObs :=
  { glacier_area := 100
    SC_area := 5
    TCC_area := 80
    CC_area := 10
    snowDEM := [1500]
    glacierDEM := []
    zonal :=
      { percentile := fun _ _ => 1500
        rmean := fun _ => 1500
        rmedian := fun _ => 1500
        rmin := fun _ => 1500
        rmax := fun _ => 1500
        rstdev := fun _ => 10 }
    outline_area := fun _ => 0
    cloud_intersection_area := fun _ => 0
    tcc_intersection_area := fun _ => 0 }

/-- Counterexample for C5: with a zero-area TSL-range band outline and
status 1, both TSL-range percentages are the NaN sentinel of a
zero-denominator ratio, not 100. -/
theorem TSLrange_zero_area_cex :
    unit_status c5_unit = 1 ∧
    unit_DEM_TSLrange_area c5_unit = some 0 ∧
    unit_cc_TSLrange_percent c5_unit = none ∧
    unit_tcc_TSLrange_percent c5_unit = none ∧
    decide (unit_cc_TSLrange_percent c5_unit = some 100) = false ∧
    decide (unit_tcc_TSLrange_percent c5_unit = some 100) = false := by decide

/-- C5 amended: the TSL-range quality metrics intersect the elevation
band, the half-open interval from mean minus stdev exclusive to mean plus
stdev inclusive, with the cloud outline and the total-classified outline;
both percentages default to 100 exactly when the status gate fails (snow
mean is the NaN sentinel, or mean or stdev is not positive); when the
status is 1 they are the intersection area over the band area times 100,
which is the NaN sentinel, not 100, when the band outline area is zero. -/
theorem TSLrange_percent_semantics :
    (∀ u : UnitObs, unit_status u = 0 →
      unit_cc_TSLrange_percent u = some 100 ∧ unit_tcc_TSLrange_percent u = some 100) ∧
    (∀ u : UnitObs, unit_status u = 1 → u.outline_area (unit_TSLrange_pixels u) ≠ 0 →
      unit_cc_TSLrange_percent u =
        some (u.cloud_intersection_area (unit_TSLrange_pixels u) /
          u.outline_area (unit_TSLrange_pixels u) * 100) ∧
      unit_tcc_TSLrange_percent u =
        some (u.tcc_intersection_area (unit_TSLrange_pixels u) /
          u.outline_area (unit_TSLrange_pixels u) * 100)) ∧
    (∀ u : UnitObs, unit_status u = 1 → u.outline_area (unit_TSLrange_pixels u) = 0 →
      unit_cc_TSLrange_percent u = none ∧ unit_tcc_TSLrange_percent u = none) ∧
    (∀ (u : UnitObs) (m sd : ℚ),
      (unit_snow_stats u).stats_mean = some m →
      (unit_snow_stats u).stats_stdev = some sd →
      unit_TSLrange_pixels u =
        u.glacierDEM.filter (fun z => decide (z ≤ m + sd) && decide (m - sd < z))) := by
  refine ⟨?_, ?_, ?_, ?_⟩
  · intro u h
    constructor <;> simp [unit_cc_TSLrange_percent, unit_tcc_TSLrange_percent, h]
  · intro u h hne
    constructor <;>
      simp [unit_cc_TSLrange_percent, unit_tcc_TSLrange_percent, unit_cc_TSLrange_area,
        unit_tcc_TSLrange_area, unit_DEM_TSLrange_area, h, qdiv, hne]
  · intro u h hz
    constructor <;>
      simp [unit_cc_TSLrange_percent, unit_tcc_TSLrange_percent, unit_cc_TSLrange_area,
        unit_tcc_TSLrange_area, unit_DEM_TSLrange_area, h, qdiv, hz]
  · intro u m sd hm hsd
    unfold unit_TSLrange_pixels
    rw [hm, hsd]

/-- A unit whose snow area is zero: the status gate fails. -/
def c5w_unit : UnitObs :=
  { glacier_area := 100
    SC_area := 0
    TCC_area := 80
    CC_area := 10
    snowDEM := []
    glacierDEM := [1495]
    zonal :=
      { percentile := fun _ _ => 0
        rmean := fun _ => 0
        rmedian := fun _ => 0
        rmin := fun _ => 0
        rmax := fun _ => 0
        rstdev := fun _ => 0 }
    outline_area := fun _ => 2
    cloud_intersection_area := fun _ => 1
    tcc_intersection_area := fun _ => 1 }

/-- A unit with status 1 and a TSL-range band outline of positive area. -/
def c5w2_unit : UnitObs :=
  { glacier_area := 100
    SC_area := 5
    TCC_area := 80
    CC_area := 10
    snowDEM := [1500]
    glacierDEM := [1495]
    zonal :=
      { percentile := fun _ _ => 1500
        rmean := fun _ => 1500
        rmedian := fun _ => 1500
        rmin := fun _ => 1500
        rmax := fun _ => 1500
        rstdev := fun _ => 10 }
    outline_area := fun _ => 2
    cloud_intersection_area := fun _ => 1
    tcc_intersection_area := fun _ => 1 }

/-- Witness for the amended C5 at a gated unit and at a unit with a
positive-area band. -/
theorem TSLrange_percent_semantics_witness :
    (unit_cc_TSLrange_percent c5w_unit = some 100 ∧
      unit_tcc_TSLrange_percent c5w_unit = some 100) ∧
    (unit_cc_TSLrange_percent c5w2_unit =
      some (c5w2_unit.cloud_intersection_area (unit_TSLrange_pixels c5w2_unit) /
        c5w2_unit.outline_area (unit_TSLrange_pixels c5w2_unit) * 100) ∧
      unit_tcc_TSLrange_percent c5w2_unit =
        some (c5w2_unit.tcc_intersection_area (unit_TSLrange_pixels c5w2_unit) /
          c5w2_unit.outline_area (unit_TSLrange_pixels c5w2_unit) * 100)) :=
  ⟨TSLrange_percent_semantics.1 c5w_unit (by decide),
    TSLrange_percent_semantics.2.1 c5w2_unit (by decide) (by decide)⟩

/-- Per-pixel inputs of the illumination calculation, core.js
lines 261-300: terrain slope and aspect from the external
terrain-derivative service, solar geometry taken from the scene
properties, and the value of the thermal band at the pixel. -/
structure IllumPixel where
  slope_deg : ℝ
  aspect_deg : ℝ
  sun_azimuth : ℝ
  sun_elevation : ℝ
  t : ℝ

/-- Degree to radian conversion, core.js lines 304-306. -/
noncomputable def to_radians (x : ℝ) : ℝ := x * Real.pi / 180

/-- The raw illumination raster IL1, core.js lines 288-289, with the
zenith angle ZE as 90 minus the sun elevation, line 278. -/
noncomputable def illum_IL1 (p : IllumPixel) : ℝ :=
  Real.cos (to_radians p.sun_azimuth - to_radians p.aspect_deg) *
    Real.sin (to_radians p.slope_deg) *
    Real.sin (to_radians (90 - p.sun_elevation)) +
  Real.cos (to_radians (90 - p.sun_elevation)) * Real.cos (to_radians p.slope_deg)

/-- The illumination threshold, core.js line 291. -/
noncomputable def il_threshold : ℝ := 0.35

/-- IL1.where(IL1.lte(il_threshold), 0), core.js line 292. -/
noncomputable def illum_IL2 (p : IllumPixel) : ℝ :=
  if illum_IL1 p ≤ il_threshold then 0 else illum_IL1 p

/-- IL2.where(IL2.gt(il_threshold), 1), core.js line 293. -/
noncomputable def illum_IL3 (p : IllumPixel) : ℝ :=
  if il_threshold < illum_IL2 p then 1 else illum_IL2 p

/-- A pixel survives calculate_illumination iff the IL3 mask does not
zero it out (image.mask(IL3), core.js line 295) and its thermal band
value passes the strict positivity mask of core.js line 297. -/
def pixel_kept (p : IllumPixel) : Prop := illum_IL3 p ≠ 0 ∧ 0 < p.t

/-- The where-chain of masks keeps a pixel exactly when the raw
illumination exceeds the threshold and the thermal band is positive. -/
theorem pixel_kept_iff (p : IllumPixel) :
    pixel_kept p ↔ (il_threshold < illum_IL1 p ∧ 0 < p.t) := by
  unfold pixel_kept illum_IL3 illum_IL2
  by_cases h : illum_IL1 p ≤ il_threshold
  · rw [if_pos h]
    have hz : ¬ il_threshold < (0 : ℝ) := by norm_num [il_threshold]
    rw [if_neg hz]
    constructor
    · rintro ⟨h0, -⟩
      exact absurd rfl h0
    · rintro ⟨hlt, -⟩
      exact absurd hlt (not_lt.mpr h)
  · rw [if_neg h]
    push_neg at h
    rw [if_pos h]
    simp [h]

/-- C8: a pixel is kept by calculate_illumination iff
cos(zenith) cos(slope) + sin(zenith) sin(slope) cos(azimuth - aspect)
with zenith equal to 90 minus the sun elevation, all in radians, exceeds
0.35 and the thermal band value is strictly positive; pixels with
illumination at or below 0.35 or non-positive thermal value are masked
out; consequently with slope 0 and sun elevation 45 degrees every pixel
of positive thermal value is kept. -/
theorem illumination_mask_spec :
    (∀ p : IllumPixel, illum_IL1 p =
      Real.cos (to_radians (90 - p.sun_elevation)) * Real.cos (to_radians p.slope_deg) +
        Real.sin (to_radians (90 - p.sun_elevation)) * Real.sin (to_radians p.slope_deg) *
          Real.cos (to_radians p.sun_azimuth - to_radians p.aspect_deg)) ∧
    (∀ p : IllumPixel, pixel_kept p ↔ (il_threshold < illum_IL1 p ∧ 0 < p.t)) ∧
    (∀ p : IllumPixel, p.slope_deg = 0 → p.sun_elevation = 45 → 0 < p.t →
      pixel_kept p) := by
  refine ⟨fun p => by unfold illum_IL1; ring, pixel_kept_iff, ?_⟩
  intro p hs he ht
  have h1 : illum_IL1 p = Real.cos (Real.pi / 4) := by
    unfold illum_IL1
    rw [hs, he]
    have h45 : to_radians (90 - 45) = Real.pi / 4 := by
      unfold to_radians
      ring
    have h0 : to_radians (0 : ℝ) = 0 := by
      unfold to_radians
      ring
    rw [h45, h0, Real.sin_zero, Real.cos_zero]
    ring
  refine (pixel_kept_iff p).mpr ⟨?_, ht⟩
  rw [h1, Real.cos_pi_div_four]
  unfold il_threshold
  nlinarith [Real.sq_sqrt (show (0 : ℝ) ≤ 2 by norm_num), Real.sqrt_nonneg 2]

/-- Witness for C8: a flat pixel under a 45 degree sun with positive
thermal value is kept. -/
theorem illumination_mask_spec_witness : pixel_kept ⟨0, 0, 123, 45, 1⟩ :=
  illumination_mask_spec.2.2 ⟨0, 0, 123, 45, 1⟩ rfl rfl one_pos

end Mantra
